import Mathlib

set_option maxRecDepth 8192

/-!
Shallow embedding of the OpenRouter-backed AI HTTP backend
(controllers in the repository: the model allow-list, the callAI
dispatch helper, and the seven endpoint handlers), together with
theorems settling the specification claims.

External collaborators (the upstream chat-completion provider and the
YouTube transcript fetcher) are modelled as oracle functions passed to
the handlers; the file system effects that the handlers perform
(writing the generated artifact, deleting the uploaded image) are
reflected as explicit fields of each handler result.
-/

namespace Backend

/-- Role of a chat message: the handlers only ever build system and
user messages. -/
inductive Role where
  | system
  | user
deriving DecidableEq

/-- One typed content part of a vision message: an image reference
(a data URL) or a plain text instruction. -/
inductive ContentPart where
  | imageUrl (url : String)
  | text (t : String)
deriving DecidableEq

/-- Message content: plain text for the text endpoints, a list of
typed parts for the vision (image-to-text) endpoint. -/
inductive MessageContent where
  | text (s : String)
  | parts (ps : List ContentPart)
deriving DecidableEq

/-- An outbound chat message. -/
structure Message where
  role : Role
  content : MessageContent
deriving DecidableEq

/-- The message object inside one choice of an upstream completion
response; only its content field is read by the code. -/
structure ChatMessage where
  content : String
deriving DecidableEq

/-- One choice of an upstream completion response. -/
structure Choice where
  message : ChatMessage
deriving DecidableEq

/-- An upstream completion response: a list of choices. -/
structure Completion where
  choices : List Choice
deriving DecidableEq

/-- The upstream provider (openrouter.chat.completions.create),
modelled as an oracle: given the model identifier and the message
list it either returns a completion or throws (transport,
authentication or provider error, carried as a string). -/
def Provider : Type := String → List Message → Except String Completion

/-- One timed transcript segment returned by the transcript fetcher;
only its text field is read by the code. -/
structure TranscriptItem where
  text : String
deriving DecidableEq

/-- The external transcript fetcher (YoutubeTranscript.fetchTranscript),
modelled as an oracle: it may throw (error string), resolve with a
null/absent value (`Option.none`), or resolve with a list of segments. -/
def TranscriptFetcher : Type := String → Except String (Option (List TranscriptItem))

/-- List of available free models from OpenRouter (the allow-list). -/
def AVAILABLE_MODELS : List String :=
  ["microsoft/phi-4-reasoning-plus:free",
   "thudm/glm-z1-32b:free",
   "deepseek/deepseek-chat-v3-0324:free",
   "deepseek/deepseek-chat:free",
   "qwen/qwen3-32b:free"]

/-- The message of the error thrown by callAI on a model identifier
outside the allow-list: "Invalid model. Choose from: " followed by
the comma-joined allow-list. -/
def invalidModelMessage : String :=
  "Invalid model. Choose from: " ++ String.intercalate ", " AVAILABLE_MODELS

/-- The message of the generic error thrown by callAI when the
upstream call (or the extraction of the first choice) fails. -/
def upstreamFailureMessage : String :=
  "Failed to get response from AI model."

/-- Result of one callAI invocation: the value returned or the error
thrown (both strings, as in the source), the list of message lists
actually sent to the upstream provider, and the console.error log. -/
structure CallResult where
  result : Except String String
  sent : List (List Message)
  log : List String

/-- The callAI helper: rejects a model identifier outside
AVAILABLE_MODELS without contacting the provider; otherwise makes
exactly one provider call and returns the first choice content, or,
when the provider throws or the response has no first choice
(`completion.choices[0]` undefined), logs the original error and
throws the generic upstream-failure error. -/
def callAI (provider : Provider) (model : String) (messages : List Message) : CallResult :=
  if !(AVAILABLE_MODELS.contains model) then
    { result := Except.error invalidModelMessage, sent := [], log := [] }
  else
    match provider model messages with
    | Except.ok completion =>
      match completion.choices with
      | c :: _ =>
        { result := Except.ok c.message.content, sent := [messages], log := [] }
      | [] =>
        { result := Except.error upstreamFailureMessage, sent := [messages],
          log := ["Error calling AI model " ++ model ++ ":"] }
    | Except.error e =>
      { result := Except.error upstreamFailureMessage, sent := [messages],
        log := ["Error calling AI model " ++ model ++ ": " ++ e] }

/-- JavaScript falsiness of an optional string field: the field is
falsy when absent (undefined) or the empty string. -/
def falsyStr : Option String → Bool
  | Option.none => true
  | Option.some s => s.isEmpty

/-- Response payload sent back to the HTTP caller: a one-field JSON
object, an error JSON object, or a file download (res.download). -/
inductive RespBody where
  | json (field value : String)
  | err (message : String)
  | download (filename content : String)
deriving DecidableEq

/-- Whether a response body is the error object carrying exactly the
given message. -/
def RespBody.isErrMsg : RespBody → String → Bool
  | RespBody.err m, s => m == s
  | _, _ => false

/-- Request body of the endpoints keyed on `prompt`
(generate-code, math-reasoning, coding-task, chat). -/
structure TextBody where
  prompt : Option String
  model : Option String
deriving DecidableEq

/-- Request body of the explainer endpoint, keyed on `topic`. -/
structure TopicBody where
  topic : Option String
  model : Option String
deriving DecidableEq

/-- Request body of the YouTube summarizer endpoint, keyed on `url`. -/
structure UrlBody where
  url : Option String
  model : Option String
deriving DecidableEq

/-- Result of a JSON-responding text endpoint: HTTP status and body,
the callAI invocations made (model and message list), the message
lists actually sent upstream, and the console log. -/
structure JsonResult where
  status : Nat
  body : RespBody
  dispatched : List (String × List Message)
  sent : List (List Message)
  log : List String
deriving DecidableEq

/-- System prompt of the generate-code endpoint. -/
def generateCodeSystemPrompt : String :=
  "You are an expert web developer. Generate a complete, self-contained HTML file with embedded CSS and JavaScript based on the user\x27s prompt. The HTML, CSS, and JS should be in a single index.html file. Do not use any external libraries unless specified. Your response should ONLY be the raw code for the index.html file, starting with <!DOCTYPE html> and ending with </html>. Do not include any explanations or markdown formatting like \x60\x60\x60html."

/-- System prompt of the math-reasoning endpoint. -/
def mathSystemPrompt : String :=
  "You are a math tutor. Solve the following problem and provide a clear, step-by-step reasoning for your solution. Format the final answer clearly."

/-- System prompt of the coding-task endpoint. -/
def codingSystemPrompt : String :=
  "You are an expert programmer. Solve the following coding task. Provide a detailed explanation of your approach, the code solution, and an analysis of its time and space complexity. Use markdown for code blocks."

/-- System prompt of the YouTube summarizer endpoint. -/
def youtubeSystemPrompt : String :=
  "You are a helpful assistant. Summarize the following video transcript into a concise overview with the main key points listed as bullet points."

/-- System prompt of the chat endpoint. -/
def chatSystemPrompt : String :=
  "You are Anjali, a friendly and helpful AI assistant. Engage in a natural and supportive conversation."

/-- System prompt of the explainer endpoint. -/
def explainerSystemPrompt : String :=
  "You are an expert educator who simplifies complex topics. Explain the following topic in a simple, easy-to-understand way. Include analogies and \"learning hacks\" to make it memorable."

/-- Result of the generate-code endpoint: in addition to the JSON
fields, the content written to generated_code/index.html (if any) and
whether that file still exists once the response has completed. -/
structure GenerateCodeResult where
  status : Nat
  body : RespBody
  dispatched : List (String × List Message)
  sent : List (List Message)
  written : Option String
  fileExistsAfter : Bool
  log : List String
deriving DecidableEq

/-- The generate-code handler. `transferOk` tells whether the
res.download transfer to the caller succeeded; the download callback
logs on a failed transfer and unlinks the file in either case. -/
def generateCode (provider : Provider) (body : TextBody) (transferOk : Bool) :
    GenerateCodeResult :=
  if falsyStr body.prompt then
    { status := 400, body := RespBody.err "Prompt is required.",
      dispatched := [], sent := [], written := Option.none,
      fileExistsAfter := false, log := [] }
  else
    let prompt := body.prompt.getD ""
    let model := body.model.getD "deepseek/deepseek-chat:free"
    let messages : List Message :=
      [{ role := Role.system, content := MessageContent.text generateCodeSystemPrompt },
       { role := Role.user, content := MessageContent.text prompt }]
    let r := callAI provider model messages
    match r.result with
    | Except.ok code =>
      let downloadLog := if transferOk then ([] : List String)
                         else ["Error downloading file:"]
      { status := 200, body := RespBody.download "index.html" code,
        dispatched := [(model, messages)], sent := r.sent,
        written := Option.some code, fileExistsAfter := false,
        log := r.log ++ downloadLog }
    | Except.error e =>
      { status := 500, body := RespBody.err e,
        dispatched := [(model, messages)], sent := r.sent,
        written := Option.none, fileExistsAfter := false, log := r.log }

/-- The math-reasoning handler. -/
def getMathReasoning (provider : Provider) (body : TextBody) : JsonResult :=
  if falsyStr body.prompt then
    { status := 400, body := RespBody.err "Math problem prompt is required.",
      dispatched := [], sent := [], log := [] }
  else
    let model := body.model.getD "microsoft/phi-4-reasoning-plus:free"
    let messages : List Message :=
      [{ role := Role.system, content := MessageContent.text mathSystemPrompt },
       { role := Role.user, content := MessageContent.text (body.prompt.getD "") }]
    let r := callAI provider model messages
    match r.result with
    | Except.ok reasoning =>
      { status := 200, body := RespBody.json "reasoning" reasoning,
        dispatched := [(model, messages)], sent := r.sent, log := r.log }
    | Except.error e =>
      { status := 500, body := RespBody.err e,
        dispatched := [(model, messages)], sent := r.sent, log := r.log }

/-- The coding-task handler. -/
def solveCodingTask (provider : Provider) (body : TextBody) : JsonResult :=
  if falsyStr body.prompt then
    { status := 400, body := RespBody.err "Coding task prompt is required.",
      dispatched := [], sent := [], log := [] }
  else
    let model := body.model.getD "thudm/glm-z1-32b:free"
    let messages : List Message :=
      [{ role := Role.system, content := MessageContent.text codingSystemPrompt },
       { role := Role.user, content := MessageContent.text (body.prompt.getD "") }]
    let r := callAI provider model messages
    match r.result with
    | Except.ok solution =>
      { status := 200, body := RespBody.json "solution" solution,
        dispatched := [(model, messages)], sent := r.sent, log := r.log }
    | Except.error e =>
      { status := 500, body := RespBody.err e,
        dispatched := [(model, messages)], sent := r.sent, log := r.log }

/-- Result of the YouTube summarizer: JSON fields plus the number of
transcript-fetch calls made. -/
structure YtResult where
  status : Nat
  body : RespBody
  dispatched : List (String × List Message)
  sent : List (List Message)
  transcriptCalls : Nat
  log : List String
deriving DecidableEq

/-- The error message of the 404 no-transcript response. -/
def noTranscriptMessage : String :=
  "Could not fetch transcript for this video. It might have transcripts disabled."

/-- The generic 500 message of the YouTube summarizer catch block. -/
def youtubeFailureMessage : String :=
  "Failed to summarize YouTube video. Please ensure the URL is correct and the video has a transcript."

/-- The YouTube summarizer handler: fetches the transcript first;
responds 404 when the fetch resolves with nothing or an empty list;
otherwise space-joins the segment texts, prepends "Transcript: " and
dispatches; any thrown error (fetch or dispatch) yields a generic 500. -/
def summarizeYoutubeVideo (provider : Provider) (fetch : TranscriptFetcher)
    (body : UrlBody) : YtResult :=
  if falsyStr body.url then
    { status := 400, body := RespBody.err "YouTube URL is required.",
      dispatched := [], sent := [], transcriptCalls := 0, log := [] }
  else
    let url := body.url.getD ""
    let model := body.model.getD "deepseek/deepseek-chat-v3-0324:free"
    match fetch url with
    | Except.error e =>
      { status := 500, body := RespBody.err youtubeFailureMessage,
        dispatched := [], sent := [], transcriptCalls := 1, log := [e] }
    | Except.ok Option.none =>
      { status := 404, body := RespBody.err noTranscriptMessage,
        dispatched := [], sent := [], transcriptCalls := 1, log := [] }
    | Except.ok (Option.some transcript) =>
      if transcript.length == 0 then
        { status := 404, body := RespBody.err noTranscriptMessage,
          dispatched := [], sent := [], transcriptCalls := 1, log := [] }
      else
        let transcriptText :=
          String.intercalate " " (transcript.map TranscriptItem.text)
        let messages : List Message :=
          [{ role := Role.system, content := MessageContent.text youtubeSystemPrompt },
           { role := Role.user,
             content := MessageContent.text ("Transcript: " ++ transcriptText) }]
        let r := callAI provider model messages
        match r.result with
        | Except.ok summary =>
          { status := 200, body := RespBody.json "summary" summary,
            dispatched := [(model, messages)], sent := r.sent,
            transcriptCalls := 1, log := r.log }
        | Except.error e =>
          { status := 500, body := RespBody.err youtubeFailureMessage,
            dispatched := [(model, messages)], sent := r.sent,
            transcriptCalls := 1, log := r.log ++ [e] }

/-- The chat handler. -/
def handleChat (provider : Provider) (body : TextBody) : JsonResult :=
  if falsyStr body.prompt then
    { status := 400, body := RespBody.err "Prompt is required for chat.",
      dispatched := [], sent := [], log := [] }
  else
    let model := body.model.getD "qwen/qwen3-32b:free"
    let messages : List Message :=
      [{ role := Role.system, content := MessageContent.text chatSystemPrompt },
       { role := Role.user, content := MessageContent.text (body.prompt.getD "") }]
    let r := callAI provider model messages
    match r.result with
    | Except.ok response =>
      { status := 200, body := RespBody.json "response" response,
        dispatched := [(model, messages)], sent := r.sent, log := r.log }
    | Except.error e =>
      { status := 500, body := RespBody.err e,
        dispatched := [(model, messages)], sent := r.sent, log := r.log }

/-- The explainer handler. -/
def getExplainer (provider : Provider) (body : TopicBody) : JsonResult :=
  if falsyStr body.topic then
    { status := 400, body := RespBody.err "Topic is required.",
      dispatched := [], sent := [], log := [] }
  else
    let model := body.model.getD "deepseek/deepseek-chat:free"
    let messages : List Message :=
      [{ role := Role.system, content := MessageContent.text explainerSystemPrompt },
       { role := Role.user, content := MessageContent.text (body.topic.getD "") }]
    let r := callAI provider model messages
    match r.result with
    | Except.ok explanation =>
      { status := 200, body := RespBody.json "explanation" explanation,
        dispatched := [(model, messages)], sent := r.sent, log := r.log }
    | Except.error e =>
      { status := 500, body := RespBody.err e,
        dispatched := [(model, messages)], sent := r.sent, log := r.log }

/-- An uploaded image file (as placed on disk by the upload
middleware): its path, the declared MIME type, and the base64
rendering of its bytes as produced by the Buffer collaborator when
the handler reads the file. -/
structure UploadedFile where
  path : String
  mimetype : String
  base64 : String
deriving DecidableEq

/-- Result of the image-to-text endpoint: HTTP fields, the message
lists sent directly to the provider, whether the uploaded file still
exists on storage after the request, and the console log. -/
structure ImageResult where
  status : Nat
  body : RespBody
  sent : List (List Message)
  fileExistsAfter : Bool
  log : List String
deriving DecidableEq

/-- The image-to-text handler: 400 when no file was uploaded;
otherwise builds a data URL from the MIME type and the base64 bytes,
calls the provider directly (no allow-list check) with one user
message of mixed parts, unlinks the uploaded file and responds with
the description; when the provider throws, the catch block responds
500 WITHOUT unlinking the file. `fileExistsAfter` is false exactly on
the paths where fs.unlinkSync ran (it runs before the extraction of
the first choice, so an empty choice list still deletes the file). -/
def imageToText (provider : Provider) (file : Option UploadedFile) : ImageResult :=
  match file with
  | Option.none =>
    { status := 400, body := RespBody.err "Image file is required.",
      sent := [], fileExistsAfter := false, log := [] }
  | Option.some f =>
    let dataUrl := "data:" ++ f.mimetype ++ ";base64," ++ f.base64
    let model := "qwen/qwen3-32b:free"
    let messages : List Message :=
      [{ role := Role.user,
         content := MessageContent.parts
           [ContentPart.imageUrl dataUrl,
            ContentPart.text "Describe this image in detail."] }]
    match provider model messages with
    | Except.ok completion =>
      match completion.choices with
      | c :: _ =>
        { status := 200, body := RespBody.json "description" c.message.content,
          sent := [messages], fileExistsAfter := false, log := [] }
      | [] =>
        { status := 500, body := RespBody.err "Failed to process image.",
          sent := [messages], fileExistsAfter := false,
          log := ["Image processing error:"] }
    | Except.error e =>
      { status := 500, body := RespBody.err "Failed to process image.",
        sent := [messages], fileExistsAfter := true,
        log := ["Image processing error: " ++ e] }

/-- A concrete provider that always answers with one choice whose
content is "ok"; used by the concrete witnesses. -/
def demoProvider : Provider := fun _ _ =>
  Except.ok { choices := [{ message := { content := "ok" } }] }

/-- A concrete provider that always throws; used by the concrete
witnesses of the failure-path theorems. -/
def failProvider : Provider := fun _ _ => Except.error "network down"

/-- C1: for every model identifier not in AVAILABLE_MODELS and every
message list, callAI fails with the InvalidModel error, whose message
enumerates the allowed identifiers, and the upstream provider is not
called (the sent list is empty). -/
theorem callAI_invalid_model (provider : Provider) (model : String)
    (messages : List Message)
    (h : AVAILABLE_MODELS.contains model = false) :
    (callAI provider model messages).result = Except.error invalidModelMessage ∧
    (callAI provider model messages).sent = [] ∧
    invalidModelMessage =
      "Invalid model. Choose from: microsoft/phi-4-reasoning-plus:free, thudm/glm-z1-32b:free, deepseek/deepseek-chat-v3-0324:free, deepseek/deepseek-chat:free, qwen/qwen3-32b:free" := by
  have h2 : model ∉ AVAILABLE_MODELS := by simpa using h
  refine ⟨?_, ?_, by decide⟩ <;> simp [callAI, h2]

/-- Witness for C1 at the concrete disallowed identifier "gpt-4". -/
theorem callAI_invalid_model_witness :
    (callAI demoProvider "gpt-4" []).result = Except.error invalidModelMessage ∧
    (callAI demoProvider "gpt-4" []).sent = [] ∧
    invalidModelMessage =
      "Invalid model. Choose from: microsoft/phi-4-reasoning-plus:free, thudm/glm-z1-32b:free, deepseek/deepseek-chat-v3-0324:free, deepseek/deepseek-chat:free, qwen/qwen3-32b:free" :=
  callAI_invalid_model demoProvider "gpt-4" [] (by decide)

/-- C2: for every allowed model identifier and message list, when the
upstream provider returns a completion whose choices list has a first
element, callAI returns exactly that first choice message content,
unmodified. -/
theorem callAI_first_choice (provider : Provider) (model : String)
    (messages : List Message) (c : Choice) (rest : List Choice)
    (hm : AVAILABLE_MODELS.contains model = true)
    (hp : provider model messages = Except.ok { choices := c :: rest }) :
    (callAI provider model messages).result = Except.ok c.message.content := by
  have h2 : model ∈ AVAILABLE_MODELS := by simpa using hm
  simp [callAI, h2, hp]

/-- Witness for C2 at a concrete allowed model and a concrete
provider response with content "ok". -/
theorem callAI_first_choice_witness :
    (callAI demoProvider "qwen/qwen3-32b:free" []).result = Except.ok "ok" :=
  callAI_first_choice demoProvider "qwen/qwen3-32b:free" []
    { message := { content := "ok" } } [] (by decide) rfl

/-- C8: for every allowed model identifier and message list, when the
upstream provider call throws (with any error detail `e`), callAI
throws the fixed generic upstream-failure message — a constant, the
same for every `e`, so no provider error detail reaches the caller — and
the original error is logged together with the model name. -/
theorem callAI_upstream_failure (provider : Provider) (model : String)
    (messages : List Message) (e : String)
    (hm : AVAILABLE_MODELS.contains model = true)
    (he : provider model messages = Except.error e) :
    (callAI provider model messages).result = Except.error upstreamFailureMessage ∧
    upstreamFailureMessage = "Failed to get response from AI model." ∧
    (callAI provider model messages).log =
      ["Error calling AI model " ++ model ++ ": " ++ e] := by
  have h2 : model ∈ AVAILABLE_MODELS := by simpa using hm
  refine ⟨?_, rfl, ?_⟩ <;> simp [callAI, h2, he]

/-- Witness for C8 at a concrete allowed model and a provider that
throws "network down". -/
theorem callAI_upstream_failure_witness :
    (callAI failProvider "qwen/qwen3-32b:free" []).result =
      Except.error upstreamFailureMessage ∧
    upstreamFailureMessage = "Failed to get response from AI model." ∧
    (callAI failProvider "qwen/qwen3-32b:free" []).log =
      ["Error calling AI model qwen/qwen3-32b:free: network down"] := by
  have h := callAI_upstream_failure failProvider "qwen/qwen3-32b:free" []
    "network down" (by decide) rfl
  simpa using h


def isTwoMessageShape : List Message → Bool
  | [⟨Role.system, MessageContent.text _⟩, ⟨Role.user, MessageContent.text _⟩] => true
  | _ => false

def isVisionShape : List Message → Bool
  | [⟨Role.user, MessageContent.parts [ContentPart.imageUrl _, ContentPart.text _]⟩] => true
  | _ => false

theorem callAI_sent_all (provider : Provider) (model : String)
    (messages : List Message) (p : List Message → Bool)
    (hp : p messages = true) :
    ((callAI provider model messages).sent.all p) = true := by
  unfold callAI
  split
  · rfl
  · split
    · split <;> simp [hp]
    · simp [hp]

theorem generateCode_sent_shape (provider : Provider) (gb : TextBody) (tOk : Bool) :
    ((generateCode provider gb tOk).sent.all isTwoMessageShape) = true := by
  unfold generateCode
  split
  · rfl
  · dsimp only
    cases hr : (callAI provider (gb.model.getD "deepseek/deepseek-chat:free")
        [{ role := Role.system, content := MessageContent.text generateCodeSystemPrompt },
         { role := Role.user, content := MessageContent.text (gb.prompt.getD "") }]).result <;>
      simp only [hr] <;> (apply callAI_sent_all; rfl)


theorem getMathReasoning_sent_shape (provider : Provider) (b : TextBody) :
    ((getMathReasoning provider b).sent.all isTwoMessageShape) = true := by
  unfold getMathReasoning
  split
  · rfl
  · dsimp only
    cases hr : (callAI provider (b.model.getD "microsoft/phi-4-reasoning-plus:free")
        [{ role := Role.system, content := MessageContent.text mathSystemPrompt },
         { role := Role.user, content := MessageContent.text (b.prompt.getD "") }]).result <;>
      simp only [hr] <;> (apply callAI_sent_all; rfl)

theorem solveCodingTask_sent_shape (provider : Provider) (b : TextBody) :
    ((solveCodingTask provider b).sent.all isTwoMessageShape) = true := by
  unfold solveCodingTask
  split
  · rfl
  · dsimp only
    cases hr : (callAI provider (b.model.getD "thudm/glm-z1-32b:free")
        [{ role := Role.system, content := MessageContent.text codingSystemPrompt },
         { role := Role.user, content := MessageContent.text (b.prompt.getD "") }]).result <;>
      simp only [hr] <;> (apply callAI_sent_all; rfl)

theorem handleChat_sent_shape (provider : Provider) (b : TextBody) :
    ((handleChat provider b).sent.all isTwoMessageShape) = true := by
  unfold handleChat
  split
  · rfl
  · dsimp only
    cases hr : (callAI provider (b.model.getD "qwen/qwen3-32b:free")
        [{ role := Role.system, content := MessageContent.text chatSystemPrompt },
         { role := Role.user, content := MessageContent.text (b.prompt.getD "") }]).result <;>
      simp only [hr] <;> (apply callAI_sent_all; rfl)

theorem getExplainer_sent_shape (provider : Provider) (b : TopicBody) :
    ((getExplainer provider b).sent.all isTwoMessageShape) = true := by
  unfold getExplainer
  split
  · rfl
  · dsimp only
    cases hr : (callAI provider (b.model.getD "deepseek/deepseek-chat:free")
        [{ role := Role.system, content := MessageContent.text explainerSystemPrompt },
         { role := Role.user, content := MessageContent.text (b.topic.getD "") }]).result <;>
      simp only [hr] <;> (apply callAI_sent_all; rfl)

theorem summarizeYoutubeVideo_sent_shape (provider : Provider)
    (fetch : TranscriptFetcher) (b : UrlBody) :
    ((summarizeYoutubeVideo provider fetch b).sent.all isTwoMessageShape) = true := by
  unfold summarizeYoutubeVideo
  split
  · rfl
  · dsimp only
    cases hf : fetch (b.url.getD "") with
    | error e => simp only [hf]; rfl
    | ok o =>
      cases o with
      | none => simp only [hf]; rfl
      | some transcript =>
        simp only [hf]
        split
        · rfl
        · cases hr : (callAI provider (b.model.getD "deepseek/deepseek-chat-v3-0324:free")
            [{ role := Role.system, content := MessageContent.text youtubeSystemPrompt },
             { role := Role.user, content := MessageContent.text
                ("Transcript: " ++ String.intercalate " " (transcript.map TranscriptItem.text)) }]).result <;>
            simp only [hr] <;> (apply callAI_sent_all; rfl)

theorem imageToText_sent_shape (provider : Provider) (file : Option UploadedFile) :
    ((imageToText provider file).sent.all isVisionShape) = true := by
  unfold imageToText
  cases file with
  | none => rfl
  | some f =>
    dsimp only
    cases hp : provider "qwen/qwen3-32b:free"
        [{ role := Role.user,
           content := MessageContent.parts
             [ContentPart.imageUrl ("data:" ++ f.mimetype ++ ";base64," ++ f.base64),
              ContentPart.text "Describe this image in detail."] }] with
    | error e => simp only [hp]; rfl
    | ok completion =>
      simp only [hp]
      cases completion.choices <;> rfl


/-!  C9 claim theorem. -/

/-- C9: every outbound provider call made by any handler, on every
input, carries exactly one system message followed by exactly one
user message — except the image-to-text vision path, whose single
call carries exactly one user message of mixed content parts (an
image reference followed by a text part) and no system message. -/
theorem outbound_provider_call_shape (provider : Provider)
    (fetch : TranscriptFetcher) (gb mb cb hb : TextBody) (ub : UrlBody)
    (eb : TopicBody) (file : Option UploadedFile) (transferOk : Bool) :
    ((generateCode provider gb transferOk).sent.all isTwoMessageShape) = true ∧
    ((getMathReasoning provider mb).sent.all isTwoMessageShape) = true ∧
    ((solveCodingTask provider cb).sent.all isTwoMessageShape) = true ∧
    ((summarizeYoutubeVideo provider fetch ub).sent.all isTwoMessageShape) = true ∧
    ((handleChat provider hb).sent.all isTwoMessageShape) = true ∧
    ((getExplainer provider eb).sent.all isTwoMessageShape) = true ∧
    ((imageToText provider file).sent.all isVisionShape) = true :=
  ⟨generateCode_sent_shape provider gb transferOk,
   getMathReasoning_sent_shape provider mb,
   solveCodingTask_sent_shape provider cb,
   summarizeYoutubeVideo_sent_shape provider fetch ub,
   handleChat_sent_shape provider hb,
   getExplainer_sent_shape provider eb,
   imageToText_sent_shape provider file⟩

/-!  Helper lemmas characterising callAI on each kind of input. -/

/-- Helper: callAI on a disallowed model is the InvalidModel throw
with nothing sent and nothing logged. -/
theorem callAI_eq_of_bad_model (provider : Provider) (model : String)
    (messages : List Message)
    (hm : AVAILABLE_MODELS.contains model = false) :
    callAI provider model messages =
      { result := Except.error invalidModelMessage, sent := [], log := [] } := by
  unfold callAI
  rw [hm]
  rfl

/-- Helper: callAI on an allowed model whose provider response has a
first choice returns that choice content and sends one call. -/
theorem callAI_eq_of_ok (provider : Provider) (model : String)
    (messages : List Message) (c : Choice) (rest : List Choice)
    (hm : AVAILABLE_MODELS.contains model = true)
    (hp : provider model messages = Except.ok { choices := c :: rest }) :
    callAI provider model messages =
      { result := Except.ok c.message.content, sent := [messages], log := [] } := by
  unfold callAI
  rw [hm, hp]
  rfl

/-- Helper: callAI on an allowed model whose provider call throws is
the generic upstream-failure throw, with the original error logged. -/
theorem callAI_eq_of_provider_error (provider : Provider) (model : String)
    (messages : List Message) (e : String)
    (hm : AVAILABLE_MODELS.contains model = true)
    (hp : provider model messages = Except.error e) :
    callAI provider model messages =
      { result := Except.error upstreamFailureMessage, sent := [messages],
        log := ["Error calling AI model " ++ model ++ ": " ++ e] } := by
  unfold callAI
  rw [hm, hp]
  rfl

/-- Helper: on an allowed model, every error thrown by callAI is the
generic upstream-failure message. -/
theorem callAI_error_of_valid (provider : Provider) (model : String)
    (messages : List Message) (e : String)
    (hm : AVAILABLE_MODELS.contains model = true)
    (he : (callAI provider model messages).result = Except.error e) :
    e = upstreamFailureMessage := by
  unfold callAI at he
  rw [hm] at he
  simp only [Bool.not_true, Bool.false_eq_true, if_false] at he
  split at he
  next => split at he <;> simp_all
  next => simp_all


/-- A concrete transcript fetcher that always resolves with the two
segments "Hello" and "world"; used by the concrete witnesses. -/
def demoFetcher : TranscriptFetcher := fun _ =>
  Except.ok (Option.some [{ text := "Hello" }, { text := "world" }])

/-- C6: every text-prompt endpoint, when its required field (prompt,
topic or url) is absent or the empty string, responds 400 with the
endpoint MissingInput message and makes no callAI dispatch, no
upstream call and no transcript fetch. -/
theorem textEndpoints_missing_input (provider : Provider)
    (fetch : TranscriptFetcher) (po mo : Option String) (transferOk : Bool)
    (h : falsyStr po = true) :
    (generateCode provider { prompt := po, model := mo } transferOk).status = 400 ∧
    (generateCode provider { prompt := po, model := mo } transferOk).body =
      RespBody.err "Prompt is required." ∧
    (generateCode provider { prompt := po, model := mo } transferOk).sent = [] ∧
    (generateCode provider { prompt := po, model := mo } transferOk).dispatched = [] ∧
    (getMathReasoning provider { prompt := po, model := mo }).status = 400 ∧
    (getMathReasoning provider { prompt := po, model := mo }).body =
      RespBody.err "Math problem prompt is required." ∧
    (getMathReasoning provider { prompt := po, model := mo }).sent = [] ∧
    (getMathReasoning provider { prompt := po, model := mo }).dispatched = [] ∧
    (solveCodingTask provider { prompt := po, model := mo }).status = 400 ∧
    (solveCodingTask provider { prompt := po, model := mo }).body =
      RespBody.err "Coding task prompt is required." ∧
    (solveCodingTask provider { prompt := po, model := mo }).sent = [] ∧
    (solveCodingTask provider { prompt := po, model := mo }).dispatched = [] ∧
    (summarizeYoutubeVideo provider fetch { url := po, model := mo }).status = 400 ∧
    (summarizeYoutubeVideo provider fetch { url := po, model := mo }).body =
      RespBody.err "YouTube URL is required." ∧
    (summarizeYoutubeVideo provider fetch { url := po, model := mo }).sent = [] ∧
    (summarizeYoutubeVideo provider fetch { url := po, model := mo }).dispatched = [] ∧
    (summarizeYoutubeVideo provider fetch { url := po, model := mo }).transcriptCalls = 0 ∧
    (handleChat provider { prompt := po, model := mo }).status = 400 ∧
    (handleChat provider { prompt := po, model := mo }).body =
      RespBody.err "Prompt is required for chat." ∧
    (handleChat provider { prompt := po, model := mo }).sent = [] ∧
    (handleChat provider { prompt := po, model := mo }).dispatched = [] ∧
    (getExplainer provider { topic := po, model := mo }).status = 400 ∧
    (getExplainer provider { topic := po, model := mo }).body =
      RespBody.err "Topic is required." ∧
    (getExplainer provider { topic := po, model := mo }).sent = [] ∧
    (getExplainer provider { topic := po, model := mo }).dispatched = [] := by
  simp [generateCode, getMathReasoning, solveCodingTask, summarizeYoutubeVideo,
    handleChat, getExplainer, h]

/-- Witness for C6: the concrete absent field (none) on every
endpoint, with the concrete demo provider and fetcher. -/
theorem textEndpoints_missing_input_witness :
    (generateCode demoProvider { prompt := Option.none, model := Option.none } true).status = 400 ∧
    (generateCode demoProvider { prompt := Option.none, model := Option.none } true).body =
      RespBody.err "Prompt is required." ∧
    (generateCode demoProvider { prompt := Option.none, model := Option.none } true).sent = [] ∧
    (generateCode demoProvider { prompt := Option.none, model := Option.none } true).dispatched = [] ∧
    (getMathReasoning demoProvider { prompt := Option.none, model := Option.none }).status = 400 ∧
    (getMathReasoning demoProvider { prompt := Option.none, model := Option.none }).body =
      RespBody.err "Math problem prompt is required." ∧
    (getMathReasoning demoProvider { prompt := Option.none, model := Option.none }).sent = [] ∧
    (getMathReasoning demoProvider { prompt := Option.none, model := Option.none }).dispatched = [] ∧
    (solveCodingTask demoProvider { prompt := Option.none, model := Option.none }).status = 400 ∧
    (solveCodingTask demoProvider { prompt := Option.none, model := Option.none }).body =
      RespBody.err "Coding task prompt is required." ∧
    (solveCodingTask demoProvider { prompt := Option.none, model := Option.none }).sent = [] ∧
    (solveCodingTask demoProvider { prompt := Option.none, model := Option.none }).dispatched = [] ∧
    (summarizeYoutubeVideo demoProvider demoFetcher { url := Option.none, model := Option.none }).status = 400 ∧
    (summarizeYoutubeVideo demoProvider demoFetcher { url := Option.none, model := Option.none }).body =
      RespBody.err "YouTube URL is required." ∧
    (summarizeYoutubeVideo demoProvider demoFetcher { url := Option.none, model := Option.none }).sent = [] ∧
    (summarizeYoutubeVideo demoProvider demoFetcher { url := Option.none, model := Option.none }).dispatched = [] ∧
    (summarizeYoutubeVideo demoProvider demoFetcher { url := Option.none, model := Option.none }).transcriptCalls = 0 ∧
    (handleChat demoProvider { prompt := Option.none, model := Option.none }).status = 400 ∧
    (handleChat demoProvider { prompt := Option.none, model := Option.none }).body =
      RespBody.err "Prompt is required for chat." ∧
    (handleChat demoProvider { prompt := Option.none, model := Option.none }).sent = [] ∧
    (handleChat demoProvider { prompt := Option.none, model := Option.none }).dispatched = [] ∧
    (getExplainer demoProvider { topic := Option.none, model := Option.none }).status = 400 ∧
    (getExplainer demoProvider { topic := Option.none, model := Option.none }).body =
      RespBody.err "Topic is required." ∧
    (getExplainer demoProvider { topic := Option.none, model := Option.none }).sent = [] ∧
    (getExplainer demoProvider { topic := Option.none, model := Option.none }).dispatched = [] :=
  textEndpoints_missing_input demoProvider demoFetcher Option.none Option.none true rfl


theorem generateCode_not_invalid_of_valid (provider : Provider) (b : TextBody)
    (tOk : Bool)
    (hm : AVAILABLE_MODELS.contains (b.model.getD "deepseek/deepseek-chat:free") = true) :
    ((generateCode provider b tOk).body.isErrMsg invalidModelMessage) = false := by
  unfold generateCode
  split
  · decide
  · dsimp only
    cases hr : (callAI provider (b.model.getD "deepseek/deepseek-chat:free")
        [{ role := Role.system, content := MessageContent.text generateCodeSystemPrompt },
         { role := Role.user, content := MessageContent.text (b.prompt.getD "") }]).result with
    | ok code => simp only [hr]; rfl
    | error e =>
      have he := callAI_error_of_valid provider _ _ e hm hr
      simp only [hr, he]
      decide

theorem getMathReasoning_not_invalid_of_valid (provider : Provider) (b : TextBody)
    (hm : AVAILABLE_MODELS.contains (b.model.getD "microsoft/phi-4-reasoning-plus:free") = true) :
    ((getMathReasoning provider b).body.isErrMsg invalidModelMessage) = false := by
  unfold getMathReasoning
  split
  · decide
  · dsimp only
    cases hr : (callAI provider (b.model.getD "microsoft/phi-4-reasoning-plus:free")
        [{ role := Role.system, content := MessageContent.text mathSystemPrompt },
         { role := Role.user, content := MessageContent.text (b.prompt.getD "") }]).result with
    | ok v => simp only [hr]; rfl
    | error e =>
      have he := callAI_error_of_valid provider _ _ e hm hr
      simp only [hr, he]
      decide

theorem solveCodingTask_not_invalid_of_valid (provider : Provider) (b : TextBody)
    (hm : AVAILABLE_MODELS.contains (b.model.getD "thudm/glm-z1-32b:free") = true) :
    ((solveCodingTask provider b).body.isErrMsg invalidModelMessage) = false := by
  unfold solveCodingTask
  split
  · decide
  · dsimp only
    cases hr : (callAI provider (b.model.getD "thudm/glm-z1-32b:free")
        [{ role := Role.system, content := MessageContent.text codingSystemPrompt },
         { role := Role.user, content := MessageContent.text (b.prompt.getD "") }]).result with
    | ok v => simp only [hr]; rfl
    | error e =>
      have he := callAI_error_of_valid provider _ _ e hm hr
      simp only [hr, he]
      decide

theorem handleChat_not_invalid_of_valid (provider : Provider) (b : TextBody)
    (hm : AVAILABLE_MODELS.contains (b.model.getD "qwen/qwen3-32b:free") = true) :
    ((handleChat provider b).body.isErrMsg invalidModelMessage) = false := by
  unfold handleChat
  split
  · decide
  · dsimp only
    cases hr : (callAI provider (b.model.getD "qwen/qwen3-32b:free")
        [{ role := Role.system, content := MessageContent.text chatSystemPrompt },
         { role := Role.user, content := MessageContent.text (b.prompt.getD "") }]).result with
    | ok v => simp only [hr]; rfl
    | error e =>
      have he := callAI_error_of_valid provider _ _ e hm hr
      simp only [hr, he]
      decide

theorem getExplainer_not_invalid_of_valid (provider : Provider) (b : TopicBody)
    (hm : AVAILABLE_MODELS.contains (b.model.getD "deepseek/deepseek-chat:free") = true) :
    ((getExplainer provider b).body.isErrMsg invalidModelMessage) = false := by
  unfold getExplainer
  split
  · decide
  · dsimp only
    cases hr : (callAI provider (b.model.getD "deepseek/deepseek-chat:free")
        [{ role := Role.system, content := MessageContent.text explainerSystemPrompt },
         { role := Role.user, content := MessageContent.text (b.topic.getD "") }]).result with
    | ok v => simp only [hr]; rfl
    | error e =>
      have he := callAI_error_of_valid provider _ _ e hm hr
      simp only [hr, he]
      decide

theorem summarizeYoutubeVideo_not_invalid_of_valid (provider : Provider)
    (fetch : TranscriptFetcher) (b : UrlBody) :
    ((summarizeYoutubeVideo provider fetch b).body.isErrMsg invalidModelMessage) = false := by
  unfold summarizeYoutubeVideo
  split
  · decide
  · dsimp only
    cases hf : fetch (b.url.getD "") with
    | error e => simp only [hf]; decide
    | ok o =>
      cases o with
      | none => simp only [hf]; decide
      | some transcript =>
        simp only [hf]
        split
        · decide
        · cases hr : (callAI provider (b.model.getD "deepseek/deepseek-chat-v3-0324:free")
              [{ role := Role.system, content := MessageContent.text youtubeSystemPrompt },
               { role := Role.user, content := MessageContent.text
                  ("Transcript: " ++ String.intercalate " " (transcript.map TranscriptItem.text)) }]).result with
          | ok v => simp only [hr]; rfl
          | error e => simp only [hr]; decide

/-- C10: each per-endpoint default model identifier is a member of
AVAILABLE_MODELS, and consequently a request that omits the model
field is never answered with the InvalidModel error, on any endpoint,
whatever the provider or the transcript fetcher does. -/
theorem omitted_model_never_invalid (provider : Provider)
    (fetch : TranscriptFetcher) (po : Option String) (transferOk : Bool) :
    (["deepseek/deepseek-chat:free", "microsoft/phi-4-reasoning-plus:free",
      "thudm/glm-z1-32b:free", "deepseek/deepseek-chat-v3-0324:free",
      "qwen/qwen3-32b:free"].all AVAILABLE_MODELS.contains) = true ∧
    ((generateCode provider { prompt := po, model := Option.none } transferOk).body.isErrMsg
      invalidModelMessage) = false ∧
    ((getMathReasoning provider { prompt := po, model := Option.none }).body.isErrMsg
      invalidModelMessage) = false ∧
    ((solveCodingTask provider { prompt := po, model := Option.none }).body.isErrMsg
      invalidModelMessage) = false ∧
    ((summarizeYoutubeVideo provider fetch { url := po, model := Option.none }).body.isErrMsg
      invalidModelMessage) = false ∧
    ((handleChat provider { prompt := po, model := Option.none }).body.isErrMsg
      invalidModelMessage) = false ∧
    ((getExplainer provider { topic := po, model := Option.none }).body.isErrMsg
      invalidModelMessage) = false :=
  ⟨by decide,
   generateCode_not_invalid_of_valid provider _ transferOk rfl,
   getMathReasoning_not_invalid_of_valid provider _ rfl,
   solveCodingTask_not_invalid_of_valid provider _ rfl,
   summarizeYoutubeVideo_not_invalid_of_valid provider fetch _,
   handleChat_not_invalid_of_valid provider _ rfl,
   getExplainer_not_invalid_of_valid provider _ rfl⟩


/-- C5: for every YouTube-summarize request with a non-empty url:
when the transcript fetch resolves with nothing or with the empty
list, the handler responds 404 with the NoTranscript message and
makes zero dispatches and zero upstream calls; when it resolves with
a non-empty segment list, the handler makes exactly one dispatch
whose user message content is "Transcript: " followed by the segment
texts joined with single spaces in order. -/
theorem summarizeYoutubeVideo_transcript_handling (provider : Provider)
    (fetch : TranscriptFetcher) (u : String) (mo : Option String)
    (hu : u.isEmpty = false) :
    ((fetch u = Except.ok Option.none ∨ fetch u = Except.ok (Option.some []) →
      (summarizeYoutubeVideo provider fetch { url := Option.some u, model := mo }).status = 404 ∧
      (summarizeYoutubeVideo provider fetch { url := Option.some u, model := mo }).body =
        RespBody.err noTranscriptMessage ∧
      (summarizeYoutubeVideo provider fetch { url := Option.some u, model := mo }).sent = [] ∧
      (summarizeYoutubeVideo provider fetch { url := Option.some u, model := mo }).dispatched = []) ∧
     (∀ ts : List TranscriptItem, fetch u = Except.ok (Option.some ts) →
      ((ts.length == 0) = false) →
      (summarizeYoutubeVideo provider fetch { url := Option.some u, model := mo }).dispatched =
        [(mo.getD "deepseek/deepseek-chat-v3-0324:free",
          [{ role := Role.system, content := MessageContent.text youtubeSystemPrompt },
           { role := Role.user, content := MessageContent.text
              ("Transcript: " ++ String.intercalate " "
                (ts.map TranscriptItem.text)) }])])) := by
  constructor
  · intro h
    rcases h with h | h <;>
      simp [summarizeYoutubeVideo, falsyStr, hu, h]
  · intro ts hts hlen
    simp only [summarizeYoutubeVideo, falsyStr, hu, Option.getD_some, hts, hlen]
    simp only [Bool.false_eq_true, if_false]
    split <;> rfl

/-- Witness for C5 at a concrete fetcher returning the segments
"Hello" and "world": the dispatched user content is exactly
"Transcript: Hello world". -/
theorem summarizeYoutubeVideo_transcript_handling_witness :
    (summarizeYoutubeVideo demoProvider demoFetcher
        { url := Option.some "https://youtu.be/x", model := Option.none }).dispatched =
      [("deepseek/deepseek-chat-v3-0324:free",
        [{ role := Role.system, content := MessageContent.text youtubeSystemPrompt },
         { role := Role.user, content := MessageContent.text "Transcript: Hello world" }])] := by
  have h := (summarizeYoutubeVideo_transcript_handling demoProvider demoFetcher
    "https://youtu.be/x" Option.none (by decide)).2
    [{ text := "Hello" }, { text := "world" }] rfl (by decide)
  rw [h]
  decide

/-- C7: for every generate-code request with a present prompt, an
allowed (or defaulted) model and a provider response whose first
choice has text T, the handler writes T verbatim to the artifact
file, streams it back as the download "index.html" with status 200,
and the artifact no longer exists after the response completes —
for a successful and for a failed transfer alike (transferOk is
universally quantified). -/
theorem generateCode_artifact (provider : Provider) (body : TextBody)
    (transferOk : Bool) (c : Choice) (rest : List Choice)
    (hp : falsyStr body.prompt = false)
    (hm : AVAILABLE_MODELS.contains (body.model.getD "deepseek/deepseek-chat:free") = true)
    (hr : provider (body.model.getD "deepseek/deepseek-chat:free")
        [{ role := Role.system, content := MessageContent.text generateCodeSystemPrompt },
         { role := Role.user, content := MessageContent.text (body.prompt.getD "") }] =
      Except.ok { choices := c :: rest }) :
    (generateCode provider body transferOk).written = Option.some c.message.content ∧
    (generateCode provider body transferOk).body =
      RespBody.download "index.html" c.message.content ∧
    (generateCode provider body transferOk).status = 200 ∧
    (generateCode provider body transferOk).fileExistsAfter = false := by
  unfold generateCode
  split
  next h => rw [hp] at h; exact Bool.noConfusion h
  next =>
    dsimp only
    rw [callAI_eq_of_ok provider _ _ c rest hm hr]
    refine ⟨rfl, rfl, rfl, rfl⟩

/-- Witness for C7 at the concrete prompt "make a page", the default
model, the demo provider (first choice text "ok"), and a failed
transfer. -/
theorem generateCode_artifact_witness :
    (generateCode demoProvider { prompt := Option.some "make a page", model := Option.none } false).written =
      Option.some "ok" ∧
    (generateCode demoProvider { prompt := Option.some "make a page", model := Option.none } false).body =
      RespBody.download "index.html" "ok" ∧
    (generateCode demoProvider { prompt := Option.some "make a page", model := Option.none } false).status = 200 ∧
    (generateCode demoProvider { prompt := Option.some "make a page", model := Option.none } false).fileExistsAfter = false :=
  generateCode_artifact demoProvider
    { prompt := Option.some "make a page", model := Option.none } false
    { message := { content := "ok" } } [] rfl rfl rfl

/-- C3 (code bug): with no uploaded file the handler responds 400
with the MissingInput message, and with an uploaded file a successful
upstream call deletes the file; but when the upstream call fails the
catch block responds 500 WITHOUT deleting the file, so the uploaded
file still exists on storage after the request — contradicting the
claim that it is removed whether the upstream call succeeded or
failed. -/
theorem imageToText_cleanup_divergence :
    (imageToText failProvider Option.none).status = 400 ∧
    (imageToText failProvider Option.none).body =
      RespBody.err "Image file is required." ∧
    (imageToText demoProvider (Option.some
      { path := "uploads/1.png", mimetype := "image/png", base64 := "QUJD" })).fileExistsAfter = false ∧
    (imageToText failProvider (Option.some
      { path := "uploads/1.png", mimetype := "image/png", base64 := "QUJD" })).status = 500 ∧
    (imageToText failProvider (Option.some
      { path := "uploads/1.png", mimetype := "image/png", base64 := "QUJD" })).fileExistsAfter = true :=
  ⟨rfl, rfl, rfl, rfl, rfl⟩

/-- C4 counterexample: the generate-code endpoint, asked for the
model "gpt-4" which is not in the allow-list, responds with HTTP
status 500 — a server-error status, not a bad-request status —
carrying the InvalidModel message. -/
theorem invalidModel_status_counterexample :
    (generateCode demoProvider
      { prompt := Option.some "make a page", model := Option.some "gpt-4" } true).status = 500 ∧
    (generateCode demoProvider
      { prompt := Option.some "make a page", model := Option.some "gpt-4" } true).body =
      RespBody.err invalidModelMessage :=
  ⟨rfl, rfl⟩

/-- C4 amended: for every text-prompt endpoint request whose model
field is a string not in the allow-list (and whose required field is
present; for youtube-summarize, with a non-empty fetched transcript),
the error response carries the server-error status 500: the handlers
catch the InvalidModel error in the same catch block as upstream
failures. The prompt/topic endpoints echo the enumerating InvalidModel
message; the YouTube endpoint responds with its generic failure
message. -/
theorem textEndpoints_invalid_model_500 (provider : Provider)
    (fetch : TranscriptFetcher) (p m : String) (t : TranscriptItem)
    (ts : List TranscriptItem) (transferOk : Bool)
    (hp : p.isEmpty = false)
    (hm : AVAILABLE_MODELS.contains m = false)
    (hf : fetch p = Except.ok (Option.some (t :: ts))) :
    (generateCode provider { prompt := Option.some p, model := Option.some m } transferOk).status = 500 ∧
    (generateCode provider { prompt := Option.some p, model := Option.some m } transferOk).body =
      RespBody.err invalidModelMessage ∧
    (getMathReasoning provider { prompt := Option.some p, model := Option.some m }).status = 500 ∧
    (getMathReasoning provider { prompt := Option.some p, model := Option.some m }).body =
      RespBody.err invalidModelMessage ∧
    (solveCodingTask provider { prompt := Option.some p, model := Option.some m }).status = 500 ∧
    (solveCodingTask provider { prompt := Option.some p, model := Option.some m }).body =
      RespBody.err invalidModelMessage ∧
    (summarizeYoutubeVideo provider fetch { url := Option.some p, model := Option.some m }).status = 500 ∧
    (summarizeYoutubeVideo provider fetch { url := Option.some p, model := Option.some m }).body =
      RespBody.err youtubeFailureMessage ∧
    (handleChat provider { prompt := Option.some p, model := Option.some m }).status = 500 ∧
    (handleChat provider { prompt := Option.some p, model := Option.some m }).body =
      RespBody.err invalidModelMessage ∧
    (getExplainer provider { topic := Option.some p, model := Option.some m }).status = 500 ∧
    (getExplainer provider { topic := Option.some p, model := Option.some m }).body =
      RespBody.err invalidModelMessage := by
  have hc : ∀ messages, callAI provider m messages =
      { result := Except.error invalidModelMessage, sent := [], log := [] } :=
    fun messages => callAI_eq_of_bad_model provider m messages hm
  simp [generateCode, getMathReasoning, solveCodingTask, summarizeYoutubeVideo,
    handleChat, getExplainer, falsyStr, hp, hf, hc]

/-- Witness for the amended C4 at the concrete prompt/url "x", the
disallowed model "gpt-4" and the demo collaborators. -/
theorem textEndpoints_invalid_model_500_witness :
    (generateCode demoProvider { prompt := Option.some "x", model := Option.some "gpt-4" } true).status = 500 ∧
    (generateCode demoProvider { prompt := Option.some "x", model := Option.some "gpt-4" } true).body =
      RespBody.err invalidModelMessage ∧
    (getMathReasoning demoProvider { prompt := Option.some "x", model := Option.some "gpt-4" }).status = 500 ∧
    (getMathReasoning demoProvider { prompt := Option.some "x", model := Option.some "gpt-4" }).body =
      RespBody.err invalidModelMessage ∧
    (solveCodingTask demoProvider { prompt := Option.some "x", model := Option.some "gpt-4" }).status = 500 ∧
    (solveCodingTask demoProvider { prompt := Option.some "x", model := Option.some "gpt-4" }).body =
      RespBody.err invalidModelMessage ∧
    (summarizeYoutubeVideo demoProvider demoFetcher { url := Option.some "x", model := Option.some "gpt-4" }).status = 500 ∧
    (summarizeYoutubeVideo demoProvider demoFetcher { url := Option.some "x", model := Option.some "gpt-4" }).body =
      RespBody.err youtubeFailureMessage ∧
    (handleChat demoProvider { prompt := Option.some "x", model := Option.some "gpt-4" }).status = 500 ∧
    (handleChat demoProvider { prompt := Option.some "x", model := Option.some "gpt-4" }).body =
      RespBody.err invalidModelMessage ∧
    (getExplainer demoProvider { topic := Option.some "x", model := Option.some "gpt-4" }).status = 500 ∧
    (getExplainer demoProvider { topic := Option.some "x", model := Option.some "gpt-4" }).body =
      RespBody.err invalidModelMessage :=
  textEndpoints_invalid_model_500 demoProvider demoFetcher "x" "gpt-4"
    { text := "Hello" } [{ text := "world" }] true (by decide) (by decide) rfl


/-- Witness for C9 at concrete bodies, file and collaborators. -/
theorem outbound_provider_call_shape_witness :
    ((generateCode demoProvider { prompt := Option.some "a", model := Option.none } true).sent.all isTwoMessageShape) = true ∧
    ((getMathReasoning demoProvider { prompt := Option.some "a", model := Option.none }).sent.all isTwoMessageShape) = true ∧
    ((solveCodingTask demoProvider { prompt := Option.some "a", model := Option.none }).sent.all isTwoMessageShape) = true ∧
    ((summarizeYoutubeVideo demoProvider demoFetcher { url := Option.some "a", model := Option.none }).sent.all isTwoMessageShape) = true ∧
    ((handleChat demoProvider { prompt := Option.some "a", model := Option.none }).sent.all isTwoMessageShape) = true ∧
    ((getExplainer demoProvider { topic := Option.some "a", model := Option.none }).sent.all isTwoMessageShape) = true ∧
    ((imageToText demoProvider (Option.some
      { path := "uploads/1.png", mimetype := "image/png", base64 := "QUJD" })).sent.all isVisionShape) = true :=
  outbound_provider_call_shape demoProvider demoFetcher
    { prompt := Option.some "a", model := Option.none }
    { prompt := Option.some "a", model := Option.none }
    { prompt := Option.some "a", model := Option.none }
    { prompt := Option.some "a", model := Option.none }
    { url := Option.some "a", model := Option.none }
    { topic := Option.some "a", model := Option.none }
    (Option.some { path := "uploads/1.png", mimetype := "image/png", base64 := "QUJD" })
    true

/-- Witness for C10 at a concrete present prompt and the demo
collaborators. -/
theorem omitted_model_never_invalid_witness :
    (["deepseek/deepseek-chat:free", "microsoft/phi-4-reasoning-plus:free",
      "thudm/glm-z1-32b:free", "deepseek/deepseek-chat-v3-0324:free",
      "qwen/qwen3-32b:free"].all AVAILABLE_MODELS.contains) = true ∧
    ((generateCode demoProvider { prompt := Option.some "a", model := Option.none } true).body.isErrMsg
      invalidModelMessage) = false ∧
    ((getMathReasoning demoProvider { prompt := Option.some "a", model := Option.none }).body.isErrMsg
      invalidModelMessage) = false ∧
    ((solveCodingTask demoProvider { prompt := Option.some "a", model := Option.none }).body.isErrMsg
      invalidModelMessage) = false ∧
    ((summarizeYoutubeVideo demoProvider demoFetcher { url := Option.some "a", model := Option.none }).body.isErrMsg
      invalidModelMessage) = false ∧
    ((handleChat demoProvider { prompt := Option.some "a", model := Option.none }).body.isErrMsg
      invalidModelMessage) = false ∧
    ((getExplainer demoProvider { topic := Option.some "a", model := Option.none }).body.isErrMsg
      invalidModelMessage) = false :=
  omitted_model_never_invalid demoProvider demoFetcher (Option.some "a") true

end Backend
